import Mathlib

/-!
# Verification of the marketplace agent services

Shallow embedding of the decision services of the repository
(`agents/services/validation_service.py`, `agents/services/valuation_service.py`,
`agents/services/recommendation_service.py`) and of the heuristic fallback engine
(`agents/clients.py`, class `AgentClient`), together with proofs about them.

Modelling conventions:
* Python `float`/`Decimal` values are modelled as `Rat` (exact arithmetic);
* Python `None` is modelled with `Option`; Python truthiness is made explicit by
  the `py_truthy_*` helpers below;
* exceptions are modelled with `Except`: a value of type `Except String α` stands
  for a computation that either produced an `α` or raised;
* the MeTTa engine (library `hyperon`, not part of the repository) is modelled as
  an oracle that, given the current fact base, either returns a list of result
  atoms (each represented by its textual rendering) or raises;
* wall-clock timestamps are omitted from result records.
-/

namespace HackIndia

/-! ## Python string primitives used by the services -/

/-- Characters stripped by Python's `str.strip()` (ASCII whitespace). -/
def py_space (c : Char) : Bool :=
  c = ' ' || c = '\t' || c = '\n' || c = '\r' || c = '\x0b' || c = '\x0c'

/-- Python `str.strip()`. -/
def py_strip (s : String) : String :=
  ⟨((s.data.dropWhile py_space).reverse.dropWhile py_space).reverse⟩

/-- Python `str.lower()` (ASCII case mapping, which covers every keyword the code compares). -/
def py_lower (s : String) : String := ⟨s.data.map Char.toLower⟩

/-- Substring containment on character lists, the semantics of Python's `needle in hay`. -/
def list_in : List Char → List Char → Bool
  | needle, [] => needle.isEmpty
  | needle, c :: rest => needle.isPrefixOf (c :: rest) || list_in needle rest

/-- Python `needle in hay` on strings. -/
def string_in (needle hay : String) : Bool := list_in needle.data hay.data

/-- Python truthiness of an optional string (`None` and `""` are falsy). -/
def py_truthy_str : Option String → Bool
  | none => false
  | some s => s != ""

/-- Python truthiness of an optional numeric value (`None` and `0` are falsy). -/
def py_truthy_rat : Option Rat → Bool
  | none => false
  | some q => q != 0

/-- Python truthiness of an optional integer (`None` and `0` are falsy). -/
def py_truthy_int : Option Int → Bool
  | none => false
  | some n => n != 0

/-- Python truthiness of an optional natural number (`None` and `0` are falsy). -/
def py_truthy_nat : Option Nat → Bool
  | none => false
  | some n => n != 0

/-! ## Data passed from the Django client to the services (`clients.py`, lines 52-97)

`AgentClient.validate_listing` always builds the `listing_data` / `user_data` dictionaries
with every key present, so the dictionaries are modelled as structures.  Database `NULL`s
are modelled as `none`; `size` and `price` are always numbers on this path
(`float(listing.size) if listing.size else 0`). -/

structure DocumentsData where
  title_deed : Bool
  tax_certificate : Bool
  utility_bills : Bool
  kyc_doc : Bool
deriving DecidableEq

structure ListingData where
  id : Option Nat
  title : Option String
  description : Option String
  location : Option String
  property_type : Option String
  size : Rat
  bedrooms : Option Int
  year_built : Option Nat
  ownership_type : Option String
  price : Rat
  documents : DocumentsData
deriving DecidableEq

structure UserData where
  id : Option Nat
  username : String
  email : String
  kyc_verified : Bool
  phone : String
  wallet_address : String
deriving DecidableEq

/-- Rendering of an optional integer interpolated into an f-string
(`None` renders as `"None"`). -/
def py_str_opt_nat : Option Nat → String
  | none => "None"
  | some n => toString n

/-- Rendering of an optional string interpolated into an f-string. -/
def py_str_opt_str : Option String → String
  | none => "None"
  | some s => s

/-- Rendering of the numeric values interpolated into fact strings.  `clients.py` passes
the int `0` when the stored value is falsy and a `float` otherwise; Python renders these
as `"0"` and e.g. `"1000.0"`.  No claim depends on the rendering of non-integral values;
they are rendered here from the rational's numerator and denominator. -/
def py_num_str (q : Rat) : String :=
  if q = 0 then "0"
  else if q.den = 1 then toString q.num ++ ".0"
  else toString q.num ++ "/" ++ toString q.den

/-! ## ValidationService fact extraction and session state (`validation_service.py`)

`ValidationService.__init__` creates a single `MeTTa()` instance stored in `self.metta`;
`validate_listing` appends the prepared facts to that same instance on every call and
never removes them.  The fact space is therefore modelled as a `FactBase` threaded
through the service calls. -/

abbrev FactBase := List String

/-- `ValidationService._prepare_facts`. -/
def prepare_facts (listing_data : ListingData) (user_data : UserData) : List String :=
  let user_id := py_str_opt_nat user_data.id
  let listing_id := py_str_opt_nat listing_data.id
  ["(has-profile " ++ user_id ++ " profile_" ++ user_id ++ ")",
   "(kyc-status profile_" ++ user_id ++ " " ++
      (if user_data.kyc_verified then "verified" else "pending") ++ ")",
   "(listing-size " ++ listing_id ++ " " ++ py_num_str listing_data.size ++ ")",
   "(property-type " ++ listing_id ++ " " ++ py_str_opt_str listing_data.property_type ++ ")",
   "(location " ++ listing_id ++ " " ++ py_str_opt_str listing_data.location ++ ")"]
  ++ (if listing_data.documents.title_deed then
        ["(has-document " ++ listing_id ++ " title_deed)"] else [])
  ++ (if listing_data.documents.tax_certificate then
        ["(has-document " ++ listing_id ++ " tax_certificate)"] else [])
  ++ (if listing_data.documents.utility_bills then
        ["(has-document " ++ listing_id ++ " utility_bills)"] else [])
  ++ (if listing_data.documents.kyc_doc then
        ["(has-document " ++ listing_id ++ " kyc_doc)"] else [])
  ++ ["(has-lien " ++ listing_id ++ " false)",
      "(allowed-zoning " ++ py_str_opt_str listing_data.location ++ " " ++
        py_str_opt_str listing_data.property_type ++ ")"]

/-! ## ValidationService result parsing (`validation_service.py`) -/

/-- `ValidationService._parse_validation_result`.  The raw engine output is the list of
result atoms, each given by its textual rendering; the code renders the first element with
`str(result[0])` and classifies it by substring containment. -/
def parse_validation_result (result : List String) : String :=
  match result with
  | [] => "NEEDS_MORE_INFO"
  | r :: _ =>
    if string_in "APPROVED" r then "APPROVED"
    else if string_in "REJECTED" r then "REJECTED"
    else "NEEDS_MORE_INFO"

/-- C4 counterexample: the parser accepts by substring containment, not by exact token
match.  The raw output `"NOT_APPROVED"` is not one of the three enumerated status values,
yet the parser maps it to `APPROVED` instead of the claimed default `NEEDS_MORE_INFO`. -/
theorem parse_validation_result_not_exact_match :
    parse_validation_result ["NOT_APPROVED"] = "APPROVED" ∧
    "NOT_APPROVED" ≠ "APPROVED" ∧ "NOT_APPROVED" ≠ "REJECTED" ∧
    "NOT_APPROVED" ≠ "NEEDS_MORE_INFO" := by
  refine ⟨by decide, by decide, by decide, by decide⟩

/-- C4 (amended): the validation result parser is total, returns only values of the
three-element status set, maps empty output to the default `NEEDS_MORE_INFO`, and accepts
by substring containment on the first result element: containing `"APPROVED"` yields
`APPROVED`; otherwise containing `"REJECTED"` yields `REJECTED`; otherwise the default. -/
theorem parse_validation_result_characterization :
    (∀ result : List String,
        parse_validation_result result = "APPROVED" ∨
        parse_validation_result result = "REJECTED" ∨
        parse_validation_result result = "NEEDS_MORE_INFO") ∧
    parse_validation_result [] = "NEEDS_MORE_INFO" ∧
    (∀ r rest, string_in "APPROVED" r = true →
        parse_validation_result (r :: rest) = "APPROVED") ∧
    (∀ r rest, string_in "APPROVED" r = false → string_in "REJECTED" r = true →
        parse_validation_result (r :: rest) = "REJECTED") ∧
    (∀ r rest, string_in "APPROVED" r = false → string_in "REJECTED" r = false →
        parse_validation_result (r :: rest) = "NEEDS_MORE_INFO") := by
  refine ⟨?_, rfl, ?_, ?_, ?_⟩
  · intro result
    match result with
    | [] => simp [parse_validation_result]
    | r :: rest =>
      simp only [parse_validation_result]
      split
      · exact Or.inl rfl
      · split
        · exact Or.inr (Or.inl rfl)
        · exact Or.inr (Or.inr rfl)
  · intro r rest h
    simp [parse_validation_result, h]
  · intro r rest h1 h2
    simp [parse_validation_result, h1, h2]
  · intro r rest h1 h2
    simp [parse_validation_result, h1, h2]

/-- Witness for the amended C4 theorem at concrete outputs. -/
theorem parse_validation_result_characterization_witness :
    parse_validation_result ["(APPROVED listing)"] = "APPROVED" ∧
    parse_validation_result ["(status REJECTED)"] = "REJECTED" ∧
    parse_validation_result ["(no answer)"] = "NEEDS_MORE_INFO" := by
  refine ⟨parse_validation_result_characterization.2.2.1 _ [] (by decide),
          parse_validation_result_characterization.2.2.2.1 _ [] (by decide) (by decide),
          parse_validation_result_characterization.2.2.2.2 _ [] (by decide) (by decide)⟩

/-- `ValidationService._parse_reasons`. -/
def parse_reasons (reasons : List String) : List String :=
  if reasons.isEmpty then ["No specific reasons provided"]
  else
    let reason_list := reasons.filterMap (fun s =>
      if string_in "KYC" s then some "KYC verification status"
      else if string_in "Documents" s then some "Required document completeness"
      else if string_in "Compliance" s then some "Property compliance validation"
      else none)
    if reason_list.isEmpty then ["General validation check"] else reason_list

/-! ## The validation service call and its facade -/

/-- The two MeTTa queries issued by `ValidationService.validate_listing`, modelled as an
oracle over the current fact base.  `Except.error` stands for the engine raising. -/
structure EngineOracle where
  runValidate : FactBase → Except String (List String)
  runReasons : FactBase → Except String (List String)

/-- Validation `DecisionResult` (status, reasons, ids; the wall-clock timestamp and, for
the fallback path, the `validation_details` block are omitted from the model). -/
structure ValResult where
  status : String
  reasons : List String
  listing_id : Option Nat
  user_id : Option Nat
deriving DecidableEq

/-- `ValidationService.validate_listing`: adds the prepared facts to the long-lived fact
space, runs the two queries, and parses the results; any exception inside the `try` body
is caught and mapped to an `ERROR` result.  Returns the result together with the fact
space after the call (facts are never rolled back, even when a query raises). -/
def validate_listing_svc (o : EngineOracle) (listing_data : ListingData)
    (user_data : UserData) (kb : FactBase) : ValResult × FactBase :=
  let kb' := kb ++ prepare_facts listing_data user_data
  match o.runValidate kb' with
  | Except.error e =>
      ({ status := "ERROR", reasons := ["Validation failed: " ++ e],
         listing_id := listing_data.id, user_id := user_data.id }, kb')
  | Except.ok result =>
      match o.runReasons kb' with
      | Except.error e =>
          ({ status := "ERROR", reasons := ["Validation failed: " ++ e],
             listing_id := listing_data.id, user_id := user_data.id }, kb')
      | Except.ok reasons =>
          ({ status := parse_validation_result result,
             reasons := parse_reasons reasons,
             listing_id := listing_data.id, user_id := user_data.id }, kb')

/-- A request to `ValidationServiceInterface.validate_property`: either a well-formed
`{listing_data, user_data}` object, or a malformed object on which the attribute/key
accesses in the facade body raise (modelled by the message of the exception). -/
inductive ValidationRequest
  | ok (listing_data : ListingData) (user_data : UserData)
  | malformed (e : String)

/-- The uniform response envelope produced by the three service facades. -/
structure ValEnvelope where
  success : Bool
  error : Option String
  result : ValResult
deriving DecidableEq

/-- `ValidationServiceInterface.validate_property`: wraps the service call in the
envelope; the outer `try/except` converts any exception raised while destructuring the
request into a `success := false` envelope. -/
def validate_property (o : EngineOracle) (req : ValidationRequest) (kb : FactBase) :
    ValEnvelope × FactBase :=
  match req with
  | ValidationRequest.malformed e =>
      ({ success := false, error := some e,
         result := { status := "ERROR", reasons := ["Service error: " ++ e],
                     listing_id := none, user_id := none } }, kb)
  | ValidationRequest.ok listing_data user_data =>
      let (res, kb') := validate_listing_svc o listing_data user_data kb
      ({ success := true, error := none, result := res }, kb')

/-- The fact space after a `validate_listing` call is the previous space extended by the
prepared facts, whatever the engine answered. -/
theorem validate_listing_svc_state (o : EngineOracle) (listing_data : ListingData)
    (user_data : UserData) (kb : FactBase) :
    (validate_listing_svc o listing_data user_data kb).2 =
      kb ++ prepare_facts listing_data user_data := by
  unfold validate_listing_svc
  cases h : o.runValidate (kb ++ prepare_facts listing_data user_data) with
  | error e => simp [h]
  | ok r =>
    cases h2 : o.runReasons (kb ++ prepare_facts listing_data user_data) with
    | error e => simp [h, h2]
    | ok rs => simp [h, h2]

/-! ## Service startup and primary/fallback dispatch (`clients.py`, `_load_*_rules`) -/

structure ValidationServiceState where
  rules_loaded : Bool
deriving DecidableEq

/-- The body of `ValidationService._load_validation_rules` before its `except` handler:
locating, reading and parsing the rule file, any of which may raise.  The repository's
rule file `agents/validation_agent.metta` is outside the embedded sources, so the body is
abstracted by its outcome. -/
def load_rules_body (rule_file : Except String String) : Except String String := rule_file

/-- `ValidationService._load_validation_rules`: the `try/except` swallows any failure and
only logs it; the service object is constructed either way.  `rules_loaded` records
whether loading succeeded. -/
def load_validation_rules (rule_file : Except String String) : ValidationServiceState :=
  match load_rules_body rule_file with
  | Except.ok _ => { rules_loaded := true }
  | Except.error _ => { rules_loaded := false }

/-- `ValidationService.__init__` (and the module-level construction of
`validation_service`): never propagates a rule-load failure. -/
def init_validation_service (rule_file : Except String String) :
    Except String ValidationServiceState :=
  Except.ok (load_validation_rules rule_file)

/-- `AGENTS_AVAILABLE` in `clients.py`: true iff importing the three service modules
succeeded; rule-load failures do not raise out of the imports, so they cannot make it
false. -/
def agents_available (import_ok : Bool) : Bool := import_ok

inductive DecisionPath
  | engine
  | fallback
deriving DecidableEq

/-- The dispatch at the top of `AgentClient.validate_listing` (lines 47-49): the fallback
path is taken exactly when `AGENTS_AVAILABLE` is false. -/
def agent_client_validate_path (avail : Bool) : DecisionPath :=
  if avail then DecisionPath.engine else DecisionPath.fallback

/-- C2 counterexample: a rule-load failure at startup is caught (the service object is
still constructed), but the service does not enter an always-unavailable mode: with the
module imports succeeded, `AGENTS_AVAILABLE` is still true and a subsequent decision call
takes the engine-backed path, not the Fallback Decision Engine path. -/
theorem rule_load_failure_stays_on_engine_path :
    init_validation_service (Except.error "validation_agent.metta: No such file") =
      Except.ok { rules_loaded := false } ∧
    agent_client_validate_path (agents_available true) = DecisionPath.engine ∧
    DecisionPath.engine ≠ DecisionPath.fallback := by
  refine ⟨rfl, rfl, by decide⟩

/-- C2 (amended): a rule-initialization failure is caught at service startup and does not
crash the host process (service construction always returns a state, with `rules_loaded`
false on failure), but the engine/fallback dispatch is a function of import success only:
with imports succeeded every call takes the engine-backed path regardless of the rule-load
outcome, and the Fallback Decision Engine path is taken exactly when the service imports
failed (`AGENTS_AVAILABLE = False`). -/
theorem rule_load_caught_and_dispatch_by_import_only :
    (∀ rule_file : Except String String,
        init_validation_service rule_file = Except.ok (load_validation_rules rule_file)) ∧
    (∀ e : String, (load_validation_rules (Except.error e)).rules_loaded = false) ∧
    (∀ s : String, (load_validation_rules (Except.ok s)).rules_loaded = true) ∧
    (∀ import_ok : Bool, agent_client_validate_path (agents_available import_ok) =
        if import_ok then DecisionPath.engine else DecisionPath.fallback) := by
  exact ⟨fun _ => rfl, fun _ => rfl, fun _ => rfl, fun _ => rfl⟩

/-! ## C1: the fact session is not fresh per call -/

/-- A listing/user snapshot used to exercise the validation fact session. -/
def session_listing : ListingData :=
  { id := some 1, title := some "Sea View Flat", description := some "Two bedroom flat",
    location := some "Mumbai", property_type := some "Apartment", size := 0,
    bedrooms := some 2, year_built := some 2015, ownership_type := some "freehold",
    price := 0,
    documents := { title_deed := true, tax_certificate := false,
                   utility_bills := false, kyc_doc := true } }

def session_user_verified : UserData :=
  { id := some 7, username := "asha", email := "asha@example.com",
    kyc_verified := true, phone := "", wallet_address := "" }

def session_user_pending : UserData :=
  { id := some 7, username := "asha", email := "asha@example.com",
    kyc_verified := false, phone := "", wallet_address := "" }

/-- C1 (code_bug evidence): the fact session used to answer a request is the long-lived
`self.metta` space, not a fresh one: every fact asserted by the first `validate_listing`
call is still in the knowledge base when the second call's query runs.  In particular,
after validating the same listing for the same user first with KYC verified and then with
KYC pending, the second query runs against a base containing both
`(kyc-status profile_7 verified)` and `(kyc-status profile_7 pending)`. -/
theorem validation_fact_session_leaks (o : EngineOracle) :
    "(kyc-status profile_7 verified)" ∈
        (validate_listing_svc o session_listing session_user_verified []).2 ∧
    "(kyc-status profile_7 verified)" ∈
        (validate_listing_svc o session_listing session_user_pending
          ((validate_listing_svc o session_listing session_user_verified []).2)).2 ∧
    "(kyc-status profile_7 pending)" ∈
        (validate_listing_svc o session_listing session_user_pending
          ((validate_listing_svc o session_listing session_user_verified []).2)).2 := by
  simp only [validate_listing_svc_state]
  refine ⟨?_, ?_, ?_⟩ <;> decide

/-! ## Django model snapshots consumed by the fallback engine (`marketplace/models.py`)

All listing fields are nullable (`blank=True, null=True`); document fields are
`FileField`s, truthy exactly when a file is attached. -/

structure FileDoc where
  name : String
  size : Nat
deriving DecidableEq

structure Listing where
  id : Nat
  title : Option String
  description : Option String
  location : Option String
  property_type : Option String
  size : Option Rat
  bedrooms : Option Int
  year_built : Option Nat
  price : Option Rat
  title_deed : Option FileDoc
  tax_certificate : Option FileDoc
  utility_bills : Option FileDoc
  kyc_doc : Option FileDoc
deriving DecidableEq

structure Profile where
  kyc_verified : Bool
deriving DecidableEq

structure UserAccount where
  id : Nat
  profile : Option Profile
deriving DecidableEq

/-- The `try: user.profile ... except Profile.DoesNotExist: kyc_verified = False` block
at the top of `_fallback_validation`. -/
def user_kyc_verified (u : UserAccount) : Bool :=
  match u.profile with
  | some p => p.kyc_verified
  | none => false

/-! ## Fallback Decision Engine - validation (`clients.py`, `_fallback_validation`) -/

def document_checks (l : Listing) : List (String × Bool) :=
  [("title_deed", l.title_deed.isSome), ("tax_certificate", l.tax_certificate.isSome),
   ("utility_bills", l.utility_bills.isSome), ("kyc_doc", l.kyc_doc.isSome)]

/-- `bool(x and x.strip())` for a nullable string field. -/
def py_str_and_strip (o : Option String) : Bool :=
  match o with
  | none => false
  | some s => s != "" && py_strip s != ""

def basic_info_checks (l : Listing) : List (String × Bool) :=
  [("title", py_str_and_strip l.title), ("description", py_str_and_strip l.description),
   ("location", py_str_and_strip l.location),
   ("property_type", py_str_and_strip l.property_type)]

/-- `bool(x and float(x) > 0)` for a nullable numeric field (note the short-circuit:
`None` and `0` are falsy; any other value is compared with `0`). -/
def py_pos_check_rat (o : Option Rat) : Bool :=
  match o with
  | none => false
  | some q => if q = 0 then false else decide (0 < q)

/-- `bool(x and x > 0)` for the nullable integer `bedrooms` field. -/
def py_pos_check_int (o : Option Int) : Bool :=
  match o with
  | none => false
  | some n => if n = 0 then false else decide (0 < n)

def property_details_checks (l : Listing) : List (String × Bool) :=
  [("size", py_pos_check_rat l.size), ("bedrooms", py_pos_check_int l.bedrooms),
   ("price", py_pos_check_rat l.price)]

/-- `[doc for doc, valid in document_checks.items() if not valid]`. -/
def missing_docs (l : Listing) : List String :=
  ((document_checks l).filter (fun p => !p.2)).map Prod.fst

/-- `[info for info, valid in basic_info_checks.items() if not valid]`. -/
def missing_info (l : Listing) : List String :=
  ((basic_info_checks l).filter (fun p => !p.2)).map Prod.fst

def missing_docs_msg (l : Listing) : String :=
  "All 4 documents required. Missing: " ++ String.intercalate ", " (missing_docs l)

def missing_info_msg (l : Listing) : String :=
  "All property information required. Missing: " ++ String.intercalate ", " (missing_info l)

def approved_msg : String :=
  "All validation checks passed - documents and content verified"

/-- One content-quality check: `if field and len(field.strip()) < bound: issues.append(msg)`. -/
def short_field_issue (o : Option String) (bound : Nat) (msg : String) : List String :=
  match o with
  | none => []
  | some s => if s != "" && decide ((py_strip s).length < bound) then [msg] else []

/-- The `content_issues` list built at lines 321-333. -/
def content_issues (l : Listing) : List String :=
  short_field_issue l.title 3 "Property title too short"
  ++ short_field_issue l.description 10 "Property description too short"
  ++ short_field_issue l.location 3 "Property location too vague"

def suspicious_patterns : List String :=
  ["screenshot", "image", "photo", "random", "test", "sample", "dummy", "fake"]

/-- `any(pattern in filename for pattern in suspicious_patterns)` with
`filename = doc.name.lower()`. -/
def doc_suspicious (d : FileDoc) : Bool :=
  suspicious_patterns.any (fun p => string_in p (py_lower d.name))

def suspicious_issue (o : Option FileDoc) (msg : String) : List String :=
  match o with
  | none => []
  | some d => if doc_suspicious d then [msg] else []

/-- `if doc and doc.size < 50000 (min_file_size): issues.append(msg)`. -/
def small_issue (o : Option FileDoc) (msg : String) : List String :=
  match o with
  | none => []
  | some d => if d.size < 50000 then [msg] else []

/-- The `document_content_issues` list built at lines 336-374 (the four suspicious-name
checks come before the four file-size checks). -/
def document_content_issues (l : Listing) : List String :=
  suspicious_issue l.title_deed "Title deed appears to be a random document"
  ++ suspicious_issue l.tax_certificate "Tax certificate appears to be a random document"
  ++ suspicious_issue l.utility_bills "Utility bills appear to be random documents"
  ++ suspicious_issue l.kyc_doc "KYC document appears to be a random document"
  ++ small_issue l.title_deed "Title deed file too small (likely not a real document)"
  ++ small_issue l.tax_certificate "Tax certificate file too small (likely not a real document)"
  ++ small_issue l.utility_bills "Utility bills file too small (likely not a real document)"
  ++ small_issue l.kyc_doc "KYC document file too small (likely not a real document)"

/-- The repeated `if <violation>: status = "REJECTED"; reasons.append/extend(...)` pattern
of `_fallback_validation`, acting on the `(status, reasons)` pair. -/
def reject_step (c : Prop) [Decidable c] (msgs : List String)
    (p : String × List String) : String × List String :=
  if c then ("REJECTED", p.2 ++ msgs) else p

/-- `AgentClient._fallback_validation` (non-exception path; the `validation_details` block
and the timestamp of the returned dictionary are omitted).  The Python code mutates
`status`/`reasons` sequentially; the chain of `reject_step`s reproduces the mutation
order, and the final conditional is the approval reset of lines 385-387. -/
def fallback_validation (l : Listing) (u : UserAccount) : ValResult :=
  let kyc_verified := user_kyc_verified u
  let valid_documents := ((document_checks l).filter Prod.snd).length
  let valid_basic_info := ((basic_info_checks l).filter Prod.snd).length
  let valid_property_details := ((property_details_checks l).filter Prod.snd).length
  let ci := content_issues l
  let dci := document_content_issues l
  let p1 := reject_step (kyc_verified = false) ["KYC verification required"] ("APPROVED", [])
  let p2 := reject_step (valid_documents < 4) [missing_docs_msg l] p1
  let p3 := reject_step (valid_basic_info < 4) [missing_info_msg l] p2
  let p4 := reject_step (valid_property_details < 2)
      ["Property details incomplete (size, bedrooms, price required)"] p3
  let p5 := reject_step (dci ≠ []) dci p4
  let p6 := reject_step (ci ≠ []) ci p5
  let final :=
    if kyc_verified = true ∧ valid_documents = 4 ∧ valid_basic_info = 4 ∧
        2 ≤ valid_property_details ∧ ci = [] ∧ dci = [] then
      ("APPROVED", [approved_msg])
    else p6
  { status := final.1, reasons := final.2, listing_id := some l.id, user_id := some u.id }

/-! ### Helper lemmas about `reject_step` -/

theorem reject_step_pos (c : Prop) [Decidable c] (msgs : List String)
    (p : String × List String) (h : c) :
    reject_step c msgs p = ("REJECTED", p.2 ++ msgs) := by
  unfold reject_step; exact if_pos h

theorem reject_step_neg (c : Prop) [Decidable c] (msgs : List String)
    (p : String × List String) (h : ¬c) : reject_step c msgs p = p := by
  unfold reject_step; exact if_neg h

theorem reject_step_fst_rejected (c : Prop) [Decidable c] (msgs : List String)
    (p : String × List String) (h : p.1 = "REJECTED") :
    (reject_step c msgs p).1 = "REJECTED" := by
  unfold reject_step; split <;> simp [h]

theorem reject_step_snd_mem (c : Prop) [Decidable c] (msgs : List String)
    (p : String × List String) (m : String) (h : m ∈ p.2) :
    m ∈ (reject_step c msgs p).2 := by
  unfold reject_step; split <;> simp [h]

theorem reject_step_ne_rejected (c : Prop) [Decidable c] (msgs : List String)
    (p : String × List String) (h : (reject_step c msgs p).1 ≠ "REJECTED") :
    reject_step c msgs p = p ∧ ¬c := by
  unfold reject_step at h ⊢
  split at h
  · exact absurd rfl h
  · rename_i hc
    exact ⟨if_neg hc, hc⟩

/-- The status/reasons invariant is preserved by each rejection step, provided the step's
message list is non-empty whenever the step fires. -/
theorem reject_step_inv (c : Prop) [Decidable c] (msgs : List String)
    (p : String × List String) (hm : c → msgs ≠ [])
    (hp : p.1 = "REJECTED" → p.2 ≠ []) :
    (reject_step c msgs p).1 = "REJECTED" → (reject_step c msgs p).2 ≠ [] := by
  unfold reject_step
  split
  · rename_i hc
    intro _ habs
    rcases List.append_eq_nil.mp habs with ⟨-, h2⟩
    exact hm hc h2
  · exact hp

/-! ### Supporting lemmas for the fallback-validation theorems -/

theorem py_strip_empty : py_strip "" = "" := rfl

theorem length_empty_string : ("" : String).length = 0 := rfl

/-- A field whose stripped length is bounded below by a positive `n` passes the
`bool(x and x.strip())` presence check. -/
theorem py_str_and_strip_of_len (s : String) (n : Nat) (hn : 0 < n)
    (h : n ≤ (py_strip s).length) : py_str_and_strip (some s) = true := by
  have hps : py_strip s ≠ "" := by
    intro he
    rw [he, length_empty_string] at h
    omega
  have hs : s ≠ "" := by
    intro he
    subst he
    rw [py_strip_empty, length_empty_string] at h
    omega
  simp [py_str_and_strip, hs, hps]

/-- Some required document is missing exactly when fewer than 4 document checks pass. -/
theorem missing_docs_iff (l : Listing) :
    missing_docs l ≠ [] ↔ ((document_checks l).filter Prod.snd).length < 4 := by
  rcases l with ⟨id, t, d, loc, pt, sz, bd, yb, pr, td, tc, ub, kd⟩
  cases td <;> cases tc <;> cases ub <;> cases kd <;>
    simp [missing_docs, document_checks]

/-- C9: for every listing missing at least one of the 4 required documents (and every
user), the fallback validation status is `REJECTED` and the reasons list contains the
missing-documents message, which names exactly the missing documents (every missing one,
not just the first). -/
theorem fallback_validation_missing_docs (l : Listing) (u : UserAccount)
    (h : missing_docs l ≠ []) :
    (fallback_validation l u).status = "REJECTED" ∧
    missing_docs_msg l ∈ (fallback_validation l u).reasons ∧
    (∀ d, d ∈ missing_docs l ↔ (d, false) ∈ document_checks l) := by
  have hlt : ((document_checks l).filter Prod.snd).length < 4 := (missing_docs_iff l).1 h
  have hB : ¬(user_kyc_verified u = true ∧
      ((document_checks l).filter Prod.snd).length = 4 ∧
      ((basic_info_checks l).filter Prod.snd).length = 4 ∧
      2 ≤ ((property_details_checks l).filter Prod.snd).length ∧
      content_issues l = [] ∧ document_content_issues l = []) := by
    rintro ⟨-, h4, -⟩
    omega
  refine ⟨?_, ?_, ?_⟩
  · unfold fallback_validation
    dsimp only
    rw [if_neg hB]
    apply reject_step_fst_rejected
    apply reject_step_fst_rejected
    apply reject_step_fst_rejected
    apply reject_step_fst_rejected
    rw [reject_step_pos _ _ _ hlt]
  · unfold fallback_validation
    dsimp only
    rw [if_neg hB]
    apply reject_step_snd_mem
    apply reject_step_snd_mem
    apply reject_step_snd_mem
    apply reject_step_snd_mem
    rw [reject_step_pos _ _ _ hlt]
    simp
  · intro d
    constructor
    · intro hd
      rcases List.mem_map.mp hd with ⟨p, hp, hpd⟩
      rcases p with ⟨a, b⟩
      rcases List.mem_filter.mp hp with ⟨hpmem, hps⟩
      have hb : b = false := by simpa using hps
      subst hpd
      rw [← hb]
      exact hpmem
    · intro hd
      exact List.mem_map.mpr ⟨(d, false), List.mem_filter.mpr ⟨hd, by simp⟩, rfl⟩

/-- Witness for C9: a listing missing `tax_certificate` and `kyc_doc` is rejected with a
message naming both. -/
theorem fallback_validation_missing_docs_witness :
    (fallback_validation
      { id := 3, title := some "Plot", description := some "A plot of land",
        location := some "Pune", property_type := some "Land", size := some 500,
        bedrooms := none, year_built := none, price := some 90000,
        title_deed := some { name := "deed.pdf", size := 60000 },
        tax_certificate := none,
        utility_bills := some { name := "bills.pdf", size := 60000 },
        kyc_doc := none }
      { id := 9, profile := some { kyc_verified := true } }).status = "REJECTED" ∧
    "All 4 documents required. Missing: tax_certificate, kyc_doc" ∈
      (fallback_validation
        { id := 3, title := some "Plot", description := some "A plot of land",
          location := some "Pune", property_type := some "Land", size := some 500,
          bedrooms := none, year_built := none, price := some 90000,
          title_deed := some { name := "deed.pdf", size := 60000 },
          tax_certificate := none,
          utility_bills := some { name := "bills.pdf", size := 60000 },
          kyc_doc := none }
        { id := 9, profile := some { kyc_verified := true } }).reasons := by
  have h := fallback_validation_missing_docs
    { id := 3, title := some "Plot", description := some "A plot of land",
      location := some "Pune", property_type := some "Land", size := some 500,
      bedrooms := none, year_built := none, price := some 90000,
      title_deed := some { name := "deed.pdf", size := 60000 },
      tax_certificate := none,
      utility_bills := some { name := "bills.pdf", size := 60000 },
      kyc_doc := none }
    { id := 9, profile := some { kyc_verified := true } }
    (by decide)
  refine ⟨h.1, ?_⟩
  have h2 := h.2.1
  simpa [missing_docs_msg, missing_docs, document_checks] using h2

/-- C10: on the non-exception path, `_fallback_validation` maintains the invariant that a
`REJECTED` status comes with a non-empty reasons list, and an `APPROVED` status comes with
exactly the single success message (never an empty or multi-element list). -/
theorem fallback_validation_invariant (l : Listing) (u : UserAccount) :
    ((fallback_validation l u).status = "REJECTED" →
      (fallback_validation l u).reasons ≠ []) ∧
    ((fallback_validation l u).status = "APPROVED" →
      (fallback_validation l u).reasons = [approved_msg]) := by
  unfold fallback_validation
  dsimp only
  by_cases hB : (user_kyc_verified u = true ∧
      ((document_checks l).filter Prod.snd).length = 4 ∧
      ((basic_info_checks l).filter Prod.snd).length = 4 ∧
      2 ≤ ((property_details_checks l).filter Prod.snd).length ∧
      content_issues l = [] ∧ document_content_issues l = [])
  · rw [if_pos hB]
    constructor
    · intro hr
      exact absurd hr (by decide)
    · intro _
      rfl
  · rw [if_neg hB]
    constructor
    · apply reject_step_inv _ _ _ (fun hc => hc)
      apply reject_step_inv _ _ _ (fun hc => hc)
      apply reject_step_inv _ _ _ (fun _ => by simp)
      apply reject_step_inv _ _ _ (fun _ => by simp)
      apply reject_step_inv _ _ _ (fun _ => by simp)
      apply reject_step_inv _ _ _ (fun _ => by simp)
      intro hr
      exact absurd hr (by decide)
    · intro hA
      exfalso
      have h6 := reject_step_ne_rejected _ _ _ (show _ ≠ "REJECTED" by rw [hA]; decide)
      rw [h6.1] at hA
      have h5 := reject_step_ne_rejected _ _ _ (show _ ≠ "REJECTED" by rw [hA]; decide)
      rw [h5.1] at hA
      have h4 := reject_step_ne_rejected _ _ _ (show _ ≠ "REJECTED" by rw [hA]; decide)
      rw [h4.1] at hA
      have h3 := reject_step_ne_rejected _ _ _ (show _ ≠ "REJECTED" by rw [hA]; decide)
      rw [h3.1] at hA
      have h2 := reject_step_ne_rejected _ _ _ (show _ ≠ "REJECTED" by rw [hA]; decide)
      rw [h2.1] at hA
      have h1 := reject_step_ne_rejected _ _ _ (show _ ≠ "REJECTED" by rw [hA]; decide)
      have hkyc : user_kyc_verified u = true := by
        rcases Bool.eq_false_or_eq_true (user_kyc_verified u) with ht | hf
        · exact ht
        · exact absurd hf h1.2
      have hdlen : ((document_checks l).filter Prod.snd).length ≤ 4 := by
        have := List.length_filter_le Prod.snd (document_checks l)
        simpa [document_checks] using this
      have hblen : ((basic_info_checks l).filter Prod.snd).length ≤ 4 := by
        have := List.length_filter_le Prod.snd (basic_info_checks l)
        simpa [basic_info_checks] using this
      refine hB ⟨hkyc, by omega, by omega, by omega, ?_, ?_⟩
      · by_contra hci
        exact h6.2 hci
      · by_contra hdci
        exact h5.2 hdci

/-- C8: a listing with KYC verified, all four documents attached, each at least 50000
bytes with a filename containing no suspicious term, all four basic info fields present
(title/description/location with stripped lengths at least 3/10/3), and at least two of
the three property-detail checks passing, is `APPROVED` by the fallback validation with
exactly one reason. -/
theorem fallback_validation_approved (l : Listing) (u : UserAccount)
    (hk : user_kyc_verified u = true)
    (d1 : FileDoc) (h1 : l.title_deed = some d1)
    (h1s : 50000 ≤ d1.size) (h1n : doc_suspicious d1 = false)
    (d2 : FileDoc) (h2 : l.tax_certificate = some d2)
    (h2s : 50000 ≤ d2.size) (h2n : doc_suspicious d2 = false)
    (d3 : FileDoc) (h3 : l.utility_bills = some d3)
    (h3s : 50000 ≤ d3.size) (h3n : doc_suspicious d3 = false)
    (d4 : FileDoc) (h4 : l.kyc_doc = some d4)
    (h4s : 50000 ≤ d4.size) (h4n : doc_suspicious d4 = false)
    (t : String) (ht : l.title = some t) (ht3 : 3 ≤ (py_strip t).length)
    (dsc : String) (hdsc : l.description = some dsc) (hdsc10 : 10 ≤ (py_strip dsc).length)
    (loc : String) (hloc : l.location = some loc) (hloc3 : 3 ≤ (py_strip loc).length)
    (hpt : py_str_and_strip l.property_type = true)
    (hdet : 2 ≤ ((property_details_checks l).filter Prod.snd).length) :
    (fallback_validation l u).status = "APPROVED" ∧
    (fallback_validation l u).reasons.length = 1 := by
  have hvd : ((document_checks l).filter Prod.snd).length = 4 := by
    simp [document_checks, h1, h2, h3, h4]
  have hvbi : ((basic_info_checks l).filter Prod.snd).length = 4 := by
    simp [basic_info_checks, ht, hdsc, hloc, hpt,
      py_str_and_strip_of_len t 3 (by omega) ht3,
      py_str_and_strip_of_len dsc 10 (by omega) hdsc10,
      py_str_and_strip_of_len loc 3 (by omega) hloc3]
  have hci : content_issues l = [] := by
    simp [content_issues, short_field_issue, ht, hdsc, hloc,
      decide_eq_false (show ¬((py_strip t).length < 3) by omega),
      decide_eq_false (show ¬((py_strip dsc).length < 10) by omega),
      decide_eq_false (show ¬((py_strip loc).length < 3) by omega)]
  have hdci : document_content_issues l = [] := by
    simp only [document_content_issues, suspicious_issue, small_issue, h1, h2, h3, h4,
      h1n, h2n, h3n, h4n]
    simp [Nat.not_lt.mpr h1s, Nat.not_lt.mpr h2s, Nat.not_lt.mpr h3s, Nat.not_lt.mpr h4s]
  unfold fallback_validation
  dsimp only
  rw [if_pos ⟨hk, hvd, hvbi, hdet, hci, hdci⟩]
  exact ⟨rfl, rfl⟩

/-- Witness for C8 at a fully concrete listing and user. -/
theorem fallback_validation_approved_witness :
    (fallback_validation
      { id := 11, title := some "Green Villa", description := some "Spacious villa with garden",
        location := some "Mumbai", property_type := some "Villa", size := some 2400,
        bedrooms := some 4, year_built := some 2012, price := some 25000000,
        title_deed := some { name := "deed.pdf", size := 80000 },
        tax_certificate := some { name := "tax.pdf", size := 70000 },
        utility_bills := some { name := "bills.pdf", size := 65000 },
        kyc_doc := some { name := "identity.pdf", size := 90000 } }
      { id := 4, profile := some { kyc_verified := true } }).status = "APPROVED" ∧
    (fallback_validation
      { id := 11, title := some "Green Villa", description := some "Spacious villa with garden",
        location := some "Mumbai", property_type := some "Villa", size := some 2400,
        bedrooms := some 4, year_built := some 2012, price := some 25000000,
        title_deed := some { name := "deed.pdf", size := 80000 },
        tax_certificate := some { name := "tax.pdf", size := 70000 },
        utility_bills := some { name := "bills.pdf", size := 65000 },
        kyc_doc := some { name := "identity.pdf", size := 90000 } }
      { id := 4, profile := some { kyc_verified := true } }).reasons.length = 1 := by
  exact fallback_validation_approved _ _ (by decide)
    _ rfl (by decide) (by decide)
    _ rfl (by decide) (by decide)
    _ rfl (by decide) (by decide)
    _ rfl (by decide) (by decide)
    _ rfl (by decide)
    _ rfl (by decide)
    _ rfl (by decide)
    (by decide) (by decide)

/-- Witness for C10: the invariant instantiated at a rejected listing (empty one) and at
the approved listing of the C8 witness. -/
theorem fallback_validation_invariant_witness :
    (fallback_validation
      { id := 1, title := none, description := none, location := none, property_type := none,
        size := none, bedrooms := none, year_built := none, price := none,
        title_deed := none, tax_certificate := none, utility_bills := none, kyc_doc := none }
      { id := 2, profile := none }).reasons ≠ [] ∧
    (fallback_validation
      { id := 11, title := some "Green Villa", description := some "Spacious villa with garden",
        location := some "Mumbai", property_type := some "Villa", size := some 2400,
        bedrooms := some 4, year_built := some 2012, price := some 25000000,
        title_deed := some { name := "deed.pdf", size := 80000 },
        tax_certificate := some { name := "tax.pdf", size := 70000 },
        utility_bills := some { name := "bills.pdf", size := 65000 },
        kyc_doc := some { name := "identity.pdf", size := 90000 } }
      { id := 4, profile := some { kyc_verified := true } }).reasons = [approved_msg] := by
  constructor
  · exact (fallback_validation_invariant _ _).1 (by decide)
  · exact (fallback_validation_invariant _ _).2 (by decide)

/-! ## Fallback Decision Engine - valuation (`clients.py`, `_fallback_valuation`) -/

def base_price_per_sqft : Rat := 500

/-- The location-multiplier table, in insertion (= iteration) order. -/
def location_multipliers : List (String × Rat) :=
  [("delhi", 1.5), ("mumbai", 2.0), ("bangalore", 1.2), ("chennai", 1.0),
   ("hyderabad", 1.1), ("pune", 1.3), ("kolkata", 0.9), ("ahmedabad", 0.8),
   ("us", 1.8), ("usa", 1.8), ("united states", 1.8), ("florida", 2.2),
   ("california", 2.5), ("texas", 1.6), ("new york", 3.0)]

/-- `(listing.location or 'Unknown').lower()`. -/
def effective_location (l : Listing) : String :=
  py_lower (match l.location with
    | none => "Unknown"
    | some s => if s = "" then "Unknown" else s)

/-- The `for loc_key, loc_mult in location_multipliers.items(): if loc_key in location:
multiplier = loc_mult; break` loop, with default `1.0`. -/
def location_multiplier (location : String) : Rat :=
  match location_multipliers.find? (fun p => string_in p.1 location) with
  | some p => p.2
  | none => 1.0

/-- `float(listing.size) if listing.size else 1000`: `None` and `0` are falsy and give the
default; any other value - including a negative size - is used as-is. -/
def effective_size (l : Listing) : Rat :=
  match l.size with
  | none => 1000
  | some q => if q = 0 then 1000 else q

structure ValuationRange where
  min : Rat
  max : Rat
  currency : String
deriving DecidableEq

/-- Result of `_fallback_valuation` (the `market_analysis` map is the fixed three-entry
dictionary of lines 464-468; timestamp omitted). -/
structure FallbackValuationResult where
  listing_id : Nat
  valuation_range : ValuationRange
  market_analysis : List (String × String)
  confidence_score : Rat
deriving DecidableEq

def fallback_valuation (l : Listing) : FallbackValuationResult :=
  let location := effective_location l
  let multiplier := location_multiplier location
  let size := effective_size l
  let base_value := size * base_price_per_sqft * multiplier
  { listing_id := l.id,
    valuation_range :=
      { min := base_value * 0.85, max := base_value * 1.15, currency := "INR" },
    market_analysis :=
      [("location_trend", "stable"), ("property_type_demand", "moderate"),
       ("market_conditions", "favorable")],
    confidence_score := 0.6 }

/-- A listing whose location contains "Mumbai" but also the earlier table keyword
"Delhi". -/
def delhi_mumbai_listing : Listing :=
  { id := 31, title := some "Flat", description := some "Flat between cities",
    location := some "Delhi and Mumbai border", property_type := some "Apartment",
    size := some 1000, bedrooms := some 2, year_built := some 2018,
    price := some 5000000, title_deed := none, tax_certificate := none,
    utility_bills := none, kyc_doc := none }

/-- A listing with a negative (hence truthy) stored size. -/
def negative_size_listing : Listing :=
  { id := 32, title := some "Flat", description := some "Odd data",
    location := some "Mumbai", property_type := some "Apartment",
    size := some (-500), bedrooms := some 2, year_built := some 2018,
    price := some 5000000, title_deed := none, tax_certificate := none,
    utility_bills := none, kyc_doc := none }

/-- C7 counterexample: (i) a size-1000 listing whose location contains "Mumbai"
(case-insensitively) can still get multiplier 1.5, because the first-match loop hits the
earlier table keyword "delhi" - the returned minimum is 637500, not the claimed 850000;
(ii) a negative size is truthy in Python, so it is not replaced by the default 1000: with
size -500 and location "Mumbai" the returned minimum is -425000, not 850000. -/
theorem fallback_valuation_first_match_cex :
    (string_in "mumbai" (effective_location delhi_mumbai_listing) = true ∧
     delhi_mumbai_listing.size = some 1000 ∧
     (fallback_valuation delhi_mumbai_listing).valuation_range.min = 637500 ∧
     (637500 : Rat) ≠ 850000) ∧
    ((fallback_valuation negative_size_listing).valuation_range.min = -425000 ∧
     ((-425000 : Rat) ≠ 850000)) := by
  have heff1 : effective_location delhi_mumbai_listing = "delhi and mumbai border" := by
    decide
  have heff2 : effective_location negative_size_listing = "mumbai" := by decide
  have e1 : effective_size delhi_mumbai_listing = 1000 := by
    norm_num [effective_size, delhi_mumbai_listing]
  have e2 : location_multiplier "delhi and mumbai border" = 1.5 := by
    simp [location_multiplier, location_multipliers, List.find?,
      show string_in "delhi" "delhi and mumbai border" = true from by decide]
  have e3 : effective_size negative_size_listing = -500 := by
    norm_num [effective_size, negative_size_listing]
  have e4 : location_multiplier "mumbai" = 2.0 := by
    simp [location_multiplier, location_multipliers, List.find?,
      show string_in "delhi" "mumbai" = false from by decide,
      show string_in "mumbai" "mumbai" = true from by decide]
  have hmin1 : (fallback_valuation delhi_mumbai_listing).valuation_range.min
      = effective_size delhi_mumbai_listing * base_price_per_sqft *
        location_multiplier (effective_location delhi_mumbai_listing) * 0.85 := rfl
  have hmin2 : (fallback_valuation negative_size_listing).valuation_range.min
      = effective_size negative_size_listing * base_price_per_sqft *
        location_multiplier (effective_location negative_size_listing) * 0.85 := rfl
  refine ⟨⟨by decide, rfl, ?_, by norm_num⟩, ?_, by norm_num⟩
  · rw [hmin1, e1, heff1, e2]
    norm_num [base_price_per_sqft]
  · rw [hmin2, e3, heff2, e4]
    norm_num [base_price_per_sqft]

/-- C7 (amended): for a listing of size 1000 whose location contains "mumbai"
case-insensitively and does not contain the earlier table keyword "delhi", the fallback
valuation uses multiplier 2.0 on the base rate 500, returning exactly [850000, 1150000];
if no table keyword occurs in the effective location the multiplier defaults to 1.0; an
unset or zero size defaults to 1000, while any other stored size (including a negative
one) is used as-is; and in general the returned range is
`size x 500 x multiplier x [0.85, 1.15]`. -/
theorem fallback_valuation_characterization :
    (∀ (l : Listing) (loc : String), l.location = some loc → l.size = some 1000 →
        string_in "delhi" (py_lower loc) = false →
        string_in "mumbai" (py_lower loc) = true →
        (fallback_valuation l).valuation_range.min = 850000 ∧
        (fallback_valuation l).valuation_range.max = 1150000 ∧
        (fallback_valuation l).valuation_range.currency = "INR") ∧
    (∀ l : Listing, (∀ p ∈ location_multipliers,
          string_in p.1 (effective_location l) = false) →
        location_multiplier (effective_location l) = 1) ∧
    (∀ l : Listing, l.size = none ∨ l.size = some 0 → effective_size l = 1000) ∧
    (∀ (l : Listing) (q : Rat), l.size = some q → q ≠ 0 → effective_size l = q) ∧
    (∀ l : Listing,
        (fallback_valuation l).valuation_range.min =
          effective_size l * base_price_per_sqft *
            location_multiplier (effective_location l) * 0.85 ∧
        (fallback_valuation l).valuation_range.max =
          effective_size l * base_price_per_sqft *
            location_multiplier (effective_location l) * 1.15) := by
  refine ⟨?_, ?_, ?_, ?_, fun l => ⟨rfl, rfl⟩⟩
  · intro l loc hl hs hdelhi hmumbai
    have hne : loc ≠ "" := by
      intro he
      subst he
      exact absurd hmumbai (by decide)
    have heff : effective_location l = py_lower loc := by
      simp [effective_location, hl, hne]
    have hmul : location_multiplier (effective_location l) = 2.0 := by
      rw [heff]
      simp [location_multiplier, location_multipliers, List.find?, hdelhi, hmumbai]
    have hsz : effective_size l = 1000 := by
      simp [effective_size, hs]
    refine ⟨?_, ?_, rfl⟩
    · show effective_size l * base_price_per_sqft *
          location_multiplier (effective_location l) * 0.85 = 850000
      rw [hmul, hsz]
      norm_num [base_price_per_sqft]
    · show effective_size l * base_price_per_sqft *
          location_multiplier (effective_location l) * 1.15 = 1150000
      rw [hmul, hsz]
      norm_num [base_price_per_sqft]
  · intro l hall
    have : location_multipliers.find? (fun p => string_in p.1 (effective_location l))
        = none := by
      apply List.find?_eq_none.mpr
      intro p hp
      simp [hall p hp]
    simp [location_multiplier, this]
    norm_num
  · rintro l (h | h) <;> simp [effective_size, h]
  · intro l q hq hne
    simp [effective_size, hq, hne]

/-- Witness for the amended C7 theorem at concrete listings. -/
theorem fallback_valuation_characterization_witness :
    (fallback_valuation
      { id := 33, title := some "Flat", description := some "Nice flat",
        location := some "Mumbai", property_type := some "Apartment",
        size := some 1000, bedrooms := some 2, year_built := some 2018,
        price := some 5000000, title_deed := none, tax_certificate := none,
        utility_bills := none, kyc_doc := none }).valuation_range.min = 850000 ∧
    (fallback_valuation
      { id := 33, title := some "Flat", description := some "Nice flat",
        location := some "Mumbai", property_type := some "Apartment",
        size := some 1000, bedrooms := some 2, year_built := some 2018,
        price := some 5000000, title_deed := none, tax_certificate := none,
        utility_bills := none, kyc_doc := none }).valuation_range.max = 1150000 ∧
    location_multiplier (effective_location
      { id := 34, title := none, description := none,
        location := some "Atlantis", property_type := none,
        size := none, bedrooms := none, year_built := none,
        price := none, title_deed := none, tax_certificate := none,
        utility_bills := none, kyc_doc := none }) = 1 ∧
    effective_size
      { id := 34, title := none, description := none,
        location := some "Atlantis", property_type := none,
        size := none, bedrooms := none, year_built := none,
        price := none, title_deed := none, tax_certificate := none,
        utility_bills := none, kyc_doc := none } = 1000 := by
  refine ⟨?_, ?_, ?_, ?_⟩
  · exact (fallback_valuation_characterization.1 _ "Mumbai" rfl rfl (by decide)
      (by decide)).1
  · exact (fallback_valuation_characterization.1 _ "Mumbai" rfl rfl (by decide)
      (by decide)).2.1
  · exact fallback_valuation_characterization.2.1 _ (by decide)
  · exact fallback_valuation_characterization.2.2.1 _ (Or.inl rfl)

/-! ## ValuationService confidence (`valuation_service.py`, `_calculate_confidence`)

The valuation client (`AgentClient.calculate_valuation`) builds the same listing
dictionary as the validation client minus the `documents` key; nothing on the valuation
path reads `documents`, so `ListingData` is reused here. -/

/-- `ValuationService._calculate_confidence`: base 0.5, +0.1 for each truthy attribute of
`size`, `bedrooms`, `year_built`, `location`, `property_type`, then `min(confidence, 1.0)`. -/
def calculate_confidence (ld : ListingData) : Rat :=
  let c : Rat := 0.5
  let c := if ld.size != 0 then c + 0.1 else c
  let c := if py_truthy_int ld.bedrooms then c + 0.1 else c
  let c := if py_truthy_nat ld.year_built then c + 0.1 else c
  let c := if py_truthy_str ld.location then c + 0.1 else c
  let c := if py_truthy_str ld.property_type then c + 0.1 else c
  min c 1

/-- The confidence formula as the spec words it: 0.5 plus 0.1 for each of the five present
attributes, capped at 1.0 (in exact rational arithmetic). -/
def confidence_per_spec (ld : ListingData) : Rat :=
  let present : Nat :=
    (if ld.size != 0 then 1 else 0) + (if py_truthy_int ld.bedrooms then 1 else 0) +
    (if py_truthy_nat ld.year_built then 1 else 0) +
    (if py_truthy_str ld.location then 1 else 0) +
    (if py_truthy_str ld.property_type then 1 else 0)
  min (0.5 + 0.1 * (present : Rat)) 1

/-- A listing with all five valuation attributes present. -/
def full_attrs_listing : Listing :=
  { id := 21, title := some "Flat", description := some "Nice flat in the city",
    location := some "Mumbai", property_type := some "Apartment", size := some 1200,
    bedrooms := some 3, year_built := some 2019, price := some 9000000,
    title_deed := none, tax_certificate := none, utility_bills := none, kyc_doc := none }

/-- C3 counterexample: the Fallback Decision Engine's valuation (`_fallback_valuation`)
returns the fixed confidence 0.6 for every listing; in particular a listing with all five
attributes present gets 0.6, not the claimed 1.0.  (The graduated 0.5 + 0.1-per-attribute
formula lives in the engine-path service, `_calculate_confidence`.) -/
theorem fallback_valuation_confidence_cex :
    full_attrs_listing.size = some 1200 ∧ full_attrs_listing.bedrooms = some 3 ∧
    full_attrs_listing.year_built = some 2019 ∧
    full_attrs_listing.location = some "Mumbai" ∧
    full_attrs_listing.property_type = some "Apartment" ∧
    (fallback_valuation full_attrs_listing).confidence_score = 0.6 ∧
    (0.6 : Rat) ≠ 1 := by
  refine ⟨rfl, rfl, rfl, rfl, rfl, rfl, by norm_num⟩

/-- C3 (amended): the 0.5-base, +0.1-per-present-attribute, capped-at-1.0 confidence
formula is computed by the engine-path valuation service (`_calculate_confidence`), where
it agrees exactly with the spec's formula and yields 1.0 when all five attributes are
present; the fallback valuation instead returns the constant confidence 0.6 for every
listing. -/
theorem valuation_confidence_characterization :
    (∀ ld : ListingData, calculate_confidence ld = confidence_per_spec ld) ∧
    (∀ ld : ListingData, (ld.size != 0) = true → py_truthy_int ld.bedrooms = true →
        py_truthy_nat ld.year_built = true → py_truthy_str ld.location = true →
        py_truthy_str ld.property_type = true → calculate_confidence ld = 1) ∧
    (∀ l : Listing, (fallback_valuation l).confidence_score = 0.6) := by
  refine ⟨?_, ?_, fun l => rfl⟩
  · intro ld
    unfold calculate_confidence confidence_per_spec
    cases h1 : (ld.size != 0) <;>
    cases h2 : py_truthy_int ld.bedrooms <;>
    cases h3 : py_truthy_nat ld.year_built <;>
    cases h4 : py_truthy_str ld.location <;>
    cases h5 : py_truthy_str ld.property_type <;>
    simp [h1, h2, h3, h4, h5] <;> norm_num
  · intro ld h1 h2 h3 h4 h5
    unfold calculate_confidence
    simp only [h1, h2, h3, h4, h5, if_true]
    norm_num

/-- Witness for the amended C3 theorem at a fully-attributed listing dictionary. -/
theorem valuation_confidence_characterization_witness :
    calculate_confidence
      { id := some 21, title := some "Flat", description := some "Nice flat in the city",
        location := some "Mumbai", property_type := some "Apartment", size := 1200,
        bedrooms := some 3, year_built := some 2019, ownership_type := some "freehold",
        price := 9000000,
        documents := { title_deed := true, tax_certificate := true,
                       utility_bills := true, kyc_doc := true } } = 1 := by
  exact valuation_confidence_characterization.2.1 _ (by decide) (by decide) (by decide)
    (by decide) (by decide)

/-! ## RecommendationService (`recommendation_service.py`)

The available-listings rows are the dictionaries produced by the client's
`.values('id', 'title', 'description', 'location', 'property_type', 'size', 'bedrooms',
'year_built', 'price')` query: every key present, nullable columns as `Option`.  Those
rows contain no `images` key, so `listing.get("images")` is `None` on this path; the
`images` flag below models its truthiness and is `false` on every client-built row. -/

structure RecListing where
  id : Nat
  title : Option String
  description : Option String
  location : Option String
  property_type : Option String
  size : Option Rat
  bedrooms : Option Int
  year_built : Option Nat
  price : Option Rat
  images : Bool
deriving DecidableEq

structure Recommendation where
  listing_id : Nat
  title : Option String
  location : Option String
  price : Option Rat
  property_type : Option String
  size : Option Rat
  bedrooms : Option Int
  recommendation_score : Rat
deriving DecidableEq

/-- `RecommendationService._calculate_recommendation_score`. -/
def calculate_recommendation_score (listing : RecListing) : Rat :=
  let score : Rat := 0.5
  let score := if py_truthy_str listing.title then score + 0.1 else score
  let score := if py_truthy_str listing.description then score + 0.1 else score
  let score := if listing.images then score + 0.1 else score
  let score := if py_truthy_rat listing.price then score + 0.1 else score
  let score := if py_truthy_rat listing.size then score + 0.1 else score
  min score 1

/-- The recommendation dictionary built from a listing row and a score. -/
def rec_entry (listing : RecListing) (score : Rat) : Recommendation :=
  { listing_id := listing.id, title := listing.title, location := listing.location,
    price := listing.price, property_type := listing.property_type,
    size := listing.size, bedrooms := listing.bedrooms, recommendation_score := score }

/-- `RecommendationService._get_fallback_recommendations`: the first (up to) 5 available
listings in input order, each with the fixed score 0.5. -/
def get_fallback_recommendations (available_listings : List RecListing) :
    List Recommendation :=
  (available_listings.take 5).map (fun l => rec_entry l 0.5)

/-- `\w` of Python's `re` on the identifiers at hand. -/
def is_word_char (c : Char) : Bool := c.isAlphanum || c = '_'

/-- `re.findall(r'listing_\w+', s)`: scan left to right; at each position a match is
`"listing_"` followed by a maximal non-empty run of word characters; scanning resumes
after the match.  The fuel argument, initialised to the text length (an upper bound on
the number of scanning steps), makes the recursion structural. -/
def find_listing_tokens_aux : Nat → List Char → List (List Char)
  | 0, _ => []
  | _ + 1, [] => []
  | fuel + 1, c :: rest =>
    if ("listing_".data).isPrefixOf (c :: rest) then
      let after := (c :: rest).drop 8
      let w := after.takeWhile is_word_char
      if w.isEmpty then find_listing_tokens_aux fuel rest
      else ("listing_".data ++ w) :: find_listing_tokens_aux fuel (after.dropWhile is_word_char)
    else find_listing_tokens_aux fuel rest

def find_listing_tokens (s : String) : List String :=
  (find_listing_tokens_aux s.data.length s.data).map (fun cs => ⟨cs⟩)

/-- Python `token.replace("listing_", "")`: remove all non-overlapping occurrences, left
to right (fuel as above). -/
def strip_listing_tag_aux : Nat → List Char → List Char
  | 0, s => s
  | _ + 1, [] => []
  | fuel + 1, c :: rest =>
    if ("listing_".data).isPrefixOf (c :: rest) then
      strip_listing_tag_aux fuel ((c :: rest).drop 8)
    else c :: strip_listing_tag_aux fuel rest

def strip_listing_tag (s : String) : String :=
  ⟨strip_listing_tag_aux s.data.length s.data⟩

/-- The nested matching loop of `_parse_recommendations` (lines 139-153): each extracted
token contributes the first available listing whose `str(id)` equals the token with the
`listing_` tag removed (`break` after the first hit), scored by the completeness
heuristic. -/
def match_listing_tokens (tokens : List String) (avail : List RecListing) :
    List Recommendation :=
  tokens.filterMap (fun t =>
    (avail.find? (fun lst => toString lst.id == strip_listing_tag t)).map
      (fun lst => rec_entry lst (calculate_recommendation_score lst)))

/-- `RecommendationService._parse_recommendations`.  Empty raw output returns `[]`
immediately (line 122-123); otherwise the first element's rendering is scanned for
`"list"` and listing tokens, the fallback is substituted when no recommendation was
collected, and the result is capped at 5. -/
def parse_recommendations (result : List String) (avail : List RecListing) :
    List Recommendation :=
  if result.isEmpty then []
  else
    let result_str := result.headD ""
    let recommendations :=
      if string_in "list" result_str then
        match_listing_tokens (find_listing_tokens result_str) avail
      else []
    let recommendations :=
      if recommendations.isEmpty then get_fallback_recommendations avail
      else recommendations
    recommendations.take 5

/-- A sample available-listings row. -/
def sample_listing : RecListing :=
  { id := 5, title := some "Flat A", description := some "A city flat",
    location := some "Pune", property_type := some "Apartment", size := some 900,
    bedrooms := some 2, year_built := some 2015, price := some 4000000,
    images := false }

/-- A one-element available-listings set. -/
def sample_avail : List RecListing := [sample_listing]

/-- C5 counterexample: for empty raw reasoner output the parser returns the empty list
immediately and does not fall back to the first available listings, although
the fallback is non-empty here. -/
theorem parse_recommendations_empty_no_fallback :
    parse_recommendations [] sample_avail = [] ∧
    get_fallback_recommendations sample_avail ≠ [] := by
  constructor
  · rfl
  · simp [get_fallback_recommendations, sample_avail]

/-- C5 (amended): the recommendation parser caps its output at 5 entries; it matches
extracted listing tokens back against the available listings by exact identifier match
(every produced entry comes from an available listing, scored by the completeness
heuristic); when the raw output is non-empty and no identifier matches, it falls back to
the first 5 available listings in input order, each with the default score 0.5; but when
the raw output is empty it returns the empty list without falling back. -/
theorem parse_recommendations_characterization :
    (∀ (result : List String) (avail : List RecListing),
        (parse_recommendations result avail).length ≤ 5) ∧
    (∀ avail : List RecListing, parse_recommendations [] avail = []) ∧
    (∀ (r : String) (rest : List String) (avail : List RecListing),
        match_listing_tokens (find_listing_tokens r) avail = [] →
        parse_recommendations (r :: rest) avail = get_fallback_recommendations avail) ∧
    (∀ (tokens : List String) (avail : List RecListing) (rec : Recommendation),
        rec ∈ match_listing_tokens tokens avail →
        ∃ lst, lst ∈ avail ∧ rec = rec_entry lst (calculate_recommendation_score lst)) ∧
    (∀ (avail : List RecListing) (rec : Recommendation),
        rec ∈ get_fallback_recommendations avail → rec.recommendation_score = 0.5) ∧
    (∀ avail : List RecListing,
        (get_fallback_recommendations avail).map Recommendation.listing_id =
          (avail.take 5).map RecListing.id) := by
  have hfb_le : ∀ avail : List RecListing,
      (get_fallback_recommendations avail).length ≤ 5 := by
    intro avail
    simp only [get_fallback_recommendations, List.length_map]
    exact List.length_take_le 5 avail
  refine ⟨?_, fun _ => rfl, ?_, ?_, ?_, ?_⟩
  · intro result avail
    unfold parse_recommendations
    split
    · simp
    · exact le_trans (List.length_take_le _ _) (le_refl 5)
  · intro r rest avail h
    unfold parse_recommendations
    simp only [List.isEmpty_cons, List.headD_cons]
    have htake : (get_fallback_recommendations avail).take 5 =
        get_fallback_recommendations avail :=
      List.take_of_length_le (hfb_le avail)
    cases hlist : string_in "list" r
    · simp [hlist, htake]
    · simp [hlist, h, htake]
  · intro tokens avail rec h
    rcases List.mem_filterMap.mp h with ⟨t, -, heq⟩
    rcases Option.map_eq_some'.mp heq with ⟨lst, hfind, hrec⟩
    exact ⟨lst, List.mem_of_find?_eq_some hfind, hrec.symm⟩
  · intro avail rec h
    rcases List.mem_map.mp h with ⟨lst, -, hrec⟩
    rw [← hrec]
    rfl
  · intro avail
    simp [get_fallback_recommendations, List.map_map]
    rfl

/-- Witness for the amended C5 theorem at concrete inputs. -/
theorem parse_recommendations_characterization_witness :
    parse_recommendations ["(list of nothing useful)"] sample_avail =
      get_fallback_recommendations sample_avail ∧
    (∃ lst, lst ∈ sample_avail ∧
      rec_entry sample_listing (calculate_recommendation_score sample_listing) =
        rec_entry lst (calculate_recommendation_score lst)) ∧
    (rec_entry sample_listing 0.5).recommendation_score = 0.5 := by
  have hmatch : match_listing_tokens ["listing_5"] sample_avail =
      [rec_entry sample_listing (calculate_recommendation_score sample_listing)] := rfl
  have hfb : get_fallback_recommendations sample_avail =
      [rec_entry sample_listing 0.5] := rfl
  refine ⟨?_, ?_, ?_⟩
  · exact parse_recommendations_characterization.2.2.1 "(list of nothing useful)" []
      sample_avail rfl
  · exact parse_recommendations_characterization.2.2.2.1 ["listing_5"] sample_avail _
      (by rw [hmatch]; exact List.mem_singleton_self _)
  · exact parse_recommendations_characterization.2.2.2.2.1 sample_avail _
      (by rw [hfb]; exact List.mem_singleton_self _)

/-! ## ValuationService (`valuation_service.py`) -/

/-- Rendering of an optional integer (`None` renders as `"None"`). -/
def py_str_opt_int : Option Int → String
  | none => "None"
  | some n => toString n

/-- Rendering of an optional numeric value interpolated into a fact string. -/
def py_opt_num_str : Option Rat → String
  | none => "None"
  | some q => py_num_str q

/-- `ValuationService._determine_area_type`, called on the value of
`listing_data.get('location', 'Unknown')` (the key is always present on the client path,
so the value may be `None`, on which `location.lower()` raises `AttributeError` -
modelled by the `Except.error` case). -/
def determine_area_type (location : Option String) : Except String String :=
  match location with
  | none => Except.error "AttributeError: NoneType object has no attribute lower"
  | some s =>
    Except.ok
      (if ["central", "downtown", "city center"].any
            (fun k => string_in k (py_lower s)) then "Central"
       else if ["suburb", "outskirts", "peripheral"].any
            (fun k => string_in k (py_lower s)) then "Outer"
       else "Suburban")

/-- `ValuationService._prepare_facts` (raises exactly when `_determine_area_type` does). -/
def prepare_valuation_facts (ld : ListingData) : Except String (List String) := do
  let listing_id := py_str_opt_nat ld.id
  let location := py_str_opt_str ld.location
  let area_type ← determine_area_type ld.location
  Except.ok
    ["(location " ++ listing_id ++ " " ++ location ++ ")",
     "(property-type " ++ listing_id ++ " " ++ py_str_opt_str ld.property_type ++ ")",
     "(listing-size " ++ listing_id ++ " " ++ py_num_str ld.size ++ ")",
     "(bedrooms " ++ listing_id ++ " " ++ py_str_opt_int ld.bedrooms ++ ")",
     "(year-built " ++ listing_id ++ " " ++ py_str_opt_nat ld.year_built ++ ")",
     "(area-type " ++ listing_id ++ " " ++ area_type ++ ")",
     "(market-trend " ++ location ++ " stable)"]

def digits_to_nat (ds : List Char) : Nat :=
  ds.foldl (fun a c => 10 * a + (c.toNat - '0'.toNat)) 0

/-- `float(tok)` for a token matched by `\d+\.?\d*`. -/
def py_float_of_token (t : List Char) : Rat :=
  let ip := t.takeWhile Char.isDigit
  let rest := t.dropWhile Char.isDigit
  match rest with
  | '.' :: fp =>
      (digits_to_nat ip : Rat) + (digits_to_nat fp : Rat) / ((10 : Rat) ^ fp.length)
  | _ => (digits_to_nat ip : Rat)

/-- `re.findall(r'\d+\.?\d*', s)`: scan left to right; at a digit, the match is the
maximal digit run, an optional dot, and a maximal (possibly empty) digit run; scanning
resumes after the match (fuel as in `find_listing_tokens_aux`). -/
def find_number_tokens_aux : Nat → List Char → List (List Char)
  | 0, _ => []
  | _ + 1, [] => []
  | fuel + 1, c :: rest =>
    if c.isDigit then
      let ds := (c :: rest).takeWhile Char.isDigit
      let r1 := (c :: rest).dropWhile Char.isDigit
      match r1 with
      | '.' :: r2 =>
          (ds ++ ['.'] ++ r2.takeWhile Char.isDigit) ::
            find_number_tokens_aux fuel (r2.dropWhile Char.isDigit)
      | _ => ds :: find_number_tokens_aux fuel r1
    else find_number_tokens_aux fuel rest

def find_number_tokens (s : String) : List (List Char) :=
  find_number_tokens_aux s.data.length s.data

/-- `ValuationService._parse_valuation_result`. -/
def parse_valuation_result (result : List String) : ValuationRange :=
  if result.isEmpty then { min := 0, max := 0, currency := "INR" }
  else
    let result_str := result.headD ""
    if string_in "valuation-range" result_str then
      match find_number_tokens result_str with
      | a :: b :: _ =>
          { min := py_float_of_token a, max := py_float_of_token b, currency := "INR" }
      | _ => { min := 0, max := 0, currency := "INR" }
    else { min := 0, max := 0, currency := "INR" }

structure ComparableProperty where
  location : Option String
  type : Option String
  price_per_sqft : Rat
  sale_date : String

structure MarketAnalysis where
  location_trend : String
  property_type_demand : String
  market_conditions : String
  comparable_properties : List ComparableProperty
  price_per_sqft : Rat

/-- The `base_rates` table of `_get_price_per_sqft`. -/
def base_rates : List ((String × String) × Rat) :=
  [(("Delhi", "Apartment"), 8000), (("Delhi", "Villa"), 12000),
   (("Mumbai", "Apartment"), 15000), (("Mumbai", "Villa"), 25000),
   (("Bangalore", "Apartment"), 6000), (("Bangalore", "Villa"), 10000)]

/-- `_get_price_per_sqft`: dictionary lookup with default 5000 (a `None` location or
property type never equals a table key). -/
def get_price_per_sqft (location property_type : Option String) : Rat :=
  match location, property_type with
  | some lc, some pt =>
    match base_rates.find? (fun p => p.1 == (lc, pt)) with
    | some p => p.2
    | none => 5000
  | _, _ => 5000

/-- `_get_comparable_properties`. -/
def get_comparable_properties (location property_type : Option String) :
    List ComparableProperty :=
  [{ location := location, type := property_type, price_per_sqft := 8000,
     sale_date := "2024-01-15" },
   { location := location, type := property_type, price_per_sqft := 8500,
     sale_date := "2024-02-20" }]

/-- `_get_market_analysis`. -/
def get_market_analysis (ld : ListingData) : MarketAnalysis :=
  { location_trend := "stable", property_type_demand := "moderate",
    market_conditions := "favorable",
    comparable_properties := get_comparable_properties ld.location ld.property_type,
    price_per_sqft := get_price_per_sqft ld.location ld.property_type }

/-- The single MeTTa query of the valuation service, as an oracle. -/
structure ValuationOracle where
  run : FactBase → Except String (List String)

/-- Valuation `DecisionResult` (`market_analysis` is the `{"error": ...}` dictionary on
the exception path; timestamp omitted). -/
structure ValuationResult where
  listing_id : Option Nat
  valuation_range : ValuationRange
  market_analysis : Except String MarketAnalysis
  confidence_score : Rat

/-- `ValuationService.calculate_valuation`: fact preparation or the engine query may
raise; both are caught by the `try/except` and produce the error result with confidence
0.0.  Facts reach the long-lived space exactly when preparation succeeded (the
`add_atom` loop runs before the query). -/
def calculate_valuation (o : ValuationOracle) (ld : ListingData) (kb : FactBase) :
    ValuationResult × FactBase :=
  match prepare_valuation_facts ld with
  | Except.error e =>
      ({ listing_id := ld.id,
         valuation_range := { min := 0, max := 0, currency := "INR" },
         market_analysis := Except.error e, confidence_score := 0 }, kb)
  | Except.ok facts =>
    let kb' := kb ++ facts
    match o.run kb' with
    | Except.error e =>
        ({ listing_id := ld.id,
           valuation_range := { min := 0, max := 0, currency := "INR" },
           market_analysis := Except.error e, confidence_score := 0 }, kb')
    | Except.ok result =>
        ({ listing_id := ld.id,
           valuation_range := parse_valuation_result result,
           market_analysis := Except.ok (get_market_analysis ld),
           confidence_score := calculate_confidence ld }, kb')

/-- A request slot that should hold a JSON-ish dictionary: either a proper dictionary
(already parsed into the typed payload `α`) or a non-dict Python object, on which every
`.get` access raises `AttributeError` with the given message. -/
inductive PyDictOr (α : Type)
  | dict (a : α)
  | nondict (e : String)

/-- A request slot that should hold a list: either a proper list or a non-list Python
object, on which both iteration and `len(...)` raise with the given message. -/
inductive PyListOr (α : Type)
  | list (xs : List α)
  | nonlist (e : String)

/-- `ValuationService.calculate_valuation` invoked on a possibly non-dict
`listing_data`: with a non-dict argument the `try` body raises at `_prepare_facts`'s
first `.get`, and the `except` handler itself re-raises at `listing_data.get("id")`
(line 75), so the call propagates the exception; with a dict argument the call is total
(the handler only performs `.get` on the dict and `str(e)`). -/
def calculate_valuation_checked (o : ValuationOracle) (listing_data : PyDictOr ListingData)
    (kb : FactBase) : Except String (ValuationResult × FactBase) :=
  match listing_data with
  | PyDictOr.nondict e => Except.error e
  | PyDictOr.dict ld => Except.ok (calculate_valuation o ld kb)

structure ValuationEnvelope where
  success : Bool
  error : Option String
  result : ValuationResult

/-- `ValuationServiceInterface.calculate_property_value`.  The request is a dictionary
holding a `listing_data` slot, or a non-dict object.  `Except.error` is an exception
propagating raw to the caller: on a non-dict request the `try` body raises at
`request.get` and the handler's own `request.get` re-raises; on a non-dict
`listing_data` the service call propagates (see `calculate_valuation_checked`) and the
handler re-raises at `request.get("listing_data", {}).get("id")` (line 247).  With a
dict `listing_data` the service call is total, so the `success := false` branch of the
handler is unreachable - it is kept here because the source contains it. -/
def calculate_property_value (o : ValuationOracle)
    (req : PyDictOr (PyDictOr ListingData)) (kb : FactBase) :
    Except String (ValuationEnvelope × FactBase) :=
  match req with
  | PyDictOr.nondict e => Except.error e
  | PyDictOr.dict listing_data =>
    match calculate_valuation_checked o listing_data kb with
    | Except.ok (res, kb') =>
        Except.ok ({ success := true, error := none, result := res }, kb')
    | Except.error e =>
      match listing_data with
      | PyDictOr.nondict e2 => Except.error e2
      | PyDictOr.dict ld =>
          Except.ok ({ success := false, error := some e,
                       result := { listing_id := ld.id,
                                   valuation_range :=
                                     { min := 0, max := 0, currency := "INR" },
                                   market_analysis := Except.error e,
                                   confidence_score := 0 } }, kb)

/-! ## Recommendation service call and facade (`recommendation_service.py`) -/

/-- The `user_data` dictionary built by `AgentClient.get_recommendations` (the three
interaction lists are always empty on the client path, but the service accepts any). -/
structure RecUserData where
  id : Option Nat
  username : String
  email : String
  viewed_properties : List Nat
  purchased_properties : List Nat
  favorited_properties : List Nat

/-- `RecommendationService._prepare_facts`. -/
def prepare_recommendation_facts (ud : RecUserData) (avail : List RecListing) :
    List String :=
  let user_id := py_str_opt_nat ud.id
  (ud.viewed_properties.map
      (fun p => "(viewed-properties " ++ user_id ++ " " ++ toString p ++ ")"))
  ++ (ud.purchased_properties.map
      (fun p => "(purchased-properties " ++ user_id ++ " " ++ toString p ++ ")"))
  ++ (ud.favorited_properties.map
      (fun p => "(favorited-properties " ++ user_id ++ " " ++ toString p ++ ")"))
  ++ (avail.flatMap (fun l =>
        let lid := toString l.id
        ["(available-listings " ++ lid ++ ")",
         "(location " ++ lid ++ " " ++ py_str_opt_str l.location ++ ")",
         "(property-type " ++ lid ++ " " ++ py_str_opt_str l.property_type ++ ")",
         "(price " ++ lid ++ " " ++ py_opt_num_str l.price ++ ")",
         "(size " ++ lid ++ " " ++ py_opt_num_str l.size ++ ")",
         "(bedrooms " ++ lid ++ " " ++ py_str_opt_int l.bedrooms ++ ")"]))
  ++ ["(all-users " ++ user_id ++ ")"]

structure RangePref where
  min : Rat
  max : Rat

structure Preferences where
  preferred_locations : List String
  preferred_property_types : List String
  price_range : RangePref
  size_range : RangePref

/-- `RecommendationService._extract_user_preferences`. -/
def extract_user_preferences (ud : RecUserData) : Preferences :=
  let base : Preferences :=
    { preferred_locations := [], preferred_property_types := [],
      price_range := { min := 0, max := 0 }, size_range := { min := 0, max := 0 } }
  if ud.viewed_properties.isEmpty then base
  else { base with preferred_locations := ["Delhi", "Mumbai"],
                   preferred_property_types := ["Apartment", "Villa"] }

/-- Recommendation reasoning block (`similarity_analysis` is the constant empty map). -/
structure Reasoning where
  user_preferences : Preferences
  recommendation_factors : List String
  similarity_analysis : List (String × String)

/-- `RecommendationService._get_recommendation_reasoning`. -/
def get_recommendation_reasoning (ud : RecUserData) (recs : List Recommendation) :
    Reasoning :=
  let history_factors :=
    if ud.viewed_properties.isEmpty then [] else ["Based on your viewing history"]
  let rec_factors := recs.flatMap (fun r =>
    (if py_truthy_str r.property_type then
        ["Similar property type: " ++ py_str_opt_str r.property_type] else [])
    ++ (if py_truthy_str r.location then
        ["Location preference: " ++ py_str_opt_str r.location] else []))
  { user_preferences := extract_user_preferences ud,
    recommendation_factors := history_factors ++ rec_factors,
    similarity_analysis := [] }

/-- Recommendation `DecisionResult` (`reasoning` is the `{"error": ...}` map on the
exception path; timestamp omitted). -/
structure RecommendationResult where
  user_id : Option Nat
  recommendations : List Recommendation
  reasoning : Except String Reasoning
  total_available : Nat

/-- The recommendation query oracle; the `limit` is interpolated into the query string,
so it is an argument of the oracle. -/
structure RecommendationOracle where
  run : FactBase → Nat → Except String (List String)

/-- `RecommendationService.get_recommendations`. -/
def get_recommendations_svc (o : RecommendationOracle) (ud : RecUserData)
    (avail : List RecListing) (limit : Nat) (kb : FactBase) :
    RecommendationResult × FactBase :=
  let kb' := kb ++ prepare_recommendation_facts ud avail
  match o.run kb' limit with
  | Except.error e =>
      ({ user_id := ud.id, recommendations := [], reasoning := Except.error e,
         total_available := avail.length }, kb')
  | Except.ok result =>
    let recommendations := parse_recommendations result avail
    ({ user_id := ud.id, recommendations := recommendations,
       reasoning := Except.ok (get_recommendation_reasoning ud recommendations),
       total_available := avail.length }, kb')

/-- `RecommendationService.get_recommendations` invoked on possibly malformed arguments:
with a non-dict `user_data` the `try` body raises at `_prepare_facts`'s first `.get` and
the `except` handler re-raises at `user_data.get("id")` (line 77); with a dict
`user_data` but a non-list `available_listings` the body raises while iterating the
listings (before any fact is added) and the handler re-raises at
`len(available_listings)` (line 80); with well-formed arguments the call is total. -/
def get_recommendations_checked (o : RecommendationOracle)
    (user_data : PyDictOr RecUserData) (available_listings : PyListOr RecListing)
    (limit : Nat) (kb : FactBase) : Except String (RecommendationResult × FactBase) :=
  match user_data with
  | PyDictOr.nondict e => Except.error e
  | PyDictOr.dict ud =>
    match available_listings with
    | PyListOr.nonlist e => Except.error e
    | PyListOr.list avail => Except.ok (get_recommendations_svc o ud avail limit kb)

/-- The slots of a dict request to the recommendation facade (`limit` defaults to 5 and
is only interpolated into the query string, so it cannot raise). -/
structure RecRequestPayload where
  user_data : PyDictOr RecUserData
  available_listings : PyListOr RecListing
  limit : Nat

structure RecommendationEnvelope where
  success : Bool
  error : Option String
  result : RecommendationResult

/-- `RecommendationServiceInterface.get_property_recommendations`.  `Except.error` is an
exception propagating raw to the caller: on a non-dict request the handler's own
`request.get` re-raises, and on a non-dict `user_data` the handler re-raises at
`request.get("user_data", {}).get("id")` (line 279).  When the service call raises with
a dict `user_data` (non-list `available_listings`), the handler survives and returns the
`success := false` envelope - the only reachable `success := false` case. -/
def get_property_recommendations (o : RecommendationOracle)
    (req : PyDictOr RecRequestPayload) (kb : FactBase) :
    Except String (RecommendationEnvelope × FactBase) :=
  match req with
  | PyDictOr.nondict e => Except.error e
  | PyDictOr.dict payload =>
    match get_recommendations_checked o payload.user_data payload.available_listings
        payload.limit kb with
    | Except.ok (res, kb') =>
        Except.ok ({ success := true, error := none, result := res }, kb')
    | Except.error e =>
      match payload.user_data with
      | PyDictOr.nondict e2 => Except.error e2
      | PyDictOr.dict ud =>
          Except.ok ({ success := false, error := some e,
                       result := { user_id := ud.id, recommendations := [],
                                   reasoning := Except.error e,
                                   total_available := 0 } }, kb)

/-- The `success` field of a valuation facade outcome, when an envelope was returned at
all (`none` means the exception propagated to the caller). -/
def valuation_envelope_success :
    Except String (ValuationEnvelope × FactBase) → Option Bool
  | Except.ok (env, _) => some env.success
  | Except.error _ => none

/-- The `success` field of a recommendation facade outcome, when an envelope was
returned at all. -/
def rec_envelope_success :
    Except String (RecommendationEnvelope × FactBase) → Option Bool
  | Except.ok (env, _) => some env.success
  | Except.error _ => none

/-- A valuation oracle whose query returns no atoms. -/
def idle_valuation_oracle : ValuationOracle :=
  { run := fun _ => Except.ok [] }

/-- A recommendation oracle whose query returns no atoms. -/
def idle_recommendation_oracle : RecommendationOracle :=
  { run := fun _ _ => Except.ok [] }

/-- C6 counterexample: a facade call can let an internal exception propagate raw to its
caller instead of returning an envelope.  A request whose `listing_data` is a non-dict
value (e.g. the int 42) makes the valuation facade's `try` body raise and its `except`
handler re-raise at `request.get("listing_data", {}).get("id")`, so the call propagates
`AttributeError` and returns no envelope; likewise the recommendation facade with a
non-dict `user_data` re-raises at `request.get("user_data", {}).get("id")`. -/
theorem facade_exception_propagates :
    calculate_property_value idle_valuation_oracle
      (PyDictOr.dict (PyDictOr.nondict
        "AttributeError: 'int' object has no attribute 'get'")) [] =
      Except.error "AttributeError: 'int' object has no attribute 'get'" ∧
    get_property_recommendations idle_recommendation_oracle
      (PyDictOr.dict
        { user_data := PyDictOr.nondict
            "AttributeError: 'int' object has no attribute 'get'",
          available_listings := PyListOr.list [], limit := 5 }) [] =
      Except.error "AttributeError: 'int' object has no attribute 'get'" :=
  ⟨rfl, rfl⟩

/-- C6 (amended): the validation facade returns a well-formed envelope on every request
(its handler touches only the exception), with `success = false` exactly on malformed
requests and `success = true` with an `ERROR` result when the engine raises.  The
valuation and recommendation facades return `success = true` with the documented
degraded result when the engine raises on a well-formed request; but on a non-dict
request, a non-dict `listing_data` (valuation) or a non-dict `user_data`
(recommendation), their exception handlers re-raise while building the error envelope
and the exception propagates with no envelope.  A returned valuation envelope always has
`success = true` (the `success = false` branch is unreachable); the recommendation
facade returns `success = false` exactly when the service call raises but the handler
survives, i.e. for a dict `user_data` with a non-list `available_listings`. -/
theorem facade_envelope_characterization :
    (∀ (o : EngineOracle) (req : ValidationRequest) (kb : FactBase),
        ((validate_property o req kb).1.success = false ↔
          ∃ e, req = ValidationRequest.malformed e)) ∧
    (∀ (o : EngineOracle) (ld : ListingData) (ud : UserData) (kb : FactBase) (e : String),
        o.runValidate (kb ++ prepare_facts ld ud) = Except.error e →
        (validate_property o (ValidationRequest.ok ld ud) kb).1.success = true ∧
        (validate_property o (ValidationRequest.ok ld ud) kb).1.result.status = "ERROR" ∧
        (validate_property o (ValidationRequest.ok ld ud) kb).1.result.reasons =
          ["Validation failed: " ++ e]) ∧
    (∀ (o : ValuationOracle) (req : PyDictOr (PyDictOr ListingData)) (kb : FactBase),
        valuation_envelope_success (calculate_property_value o req kb) = some true ∨
        valuation_envelope_success (calculate_property_value o req kb) = none) ∧
    (∀ (o : ValuationOracle) (e : String) (kb : FactBase),
        calculate_property_value o (PyDictOr.nondict e) kb = Except.error e ∧
        calculate_property_value o (PyDictOr.dict (PyDictOr.nondict e)) kb =
          Except.error e) ∧
    (∀ (o : ValuationOracle) (ld : ListingData) (kb : FactBase) (facts : List String)
        (e : String),
        prepare_valuation_facts ld = Except.ok facts →
        o.run (kb ++ facts) = Except.error e →
        calculate_property_value o (PyDictOr.dict (PyDictOr.dict ld)) kb =
          Except.ok ({ success := true, error := none,
                       result := { listing_id := ld.id,
                                   valuation_range :=
                                     { min := 0, max := 0, currency := "INR" },
                                   market_analysis := Except.error e,
                                   confidence_score := 0 } }, kb ++ facts)) ∧
    (∀ (o : RecommendationOracle) (e : String) (avail : PyListOr RecListing)
        (limit : Nat) (kb : FactBase),
        get_property_recommendations o (PyDictOr.nondict e) kb = Except.error e ∧
        get_property_recommendations o
          (PyDictOr.dict { user_data := PyDictOr.nondict e,
                           available_listings := avail, limit := limit }) kb =
          Except.error e) ∧
    (∀ (o : RecommendationOracle) (ud : RecUserData) (e : String) (limit : Nat)
        (kb : FactBase),
        get_property_recommendations o
          (PyDictOr.dict { user_data := PyDictOr.dict ud,
                           available_listings := PyListOr.nonlist e,
                           limit := limit }) kb =
          Except.ok ({ success := false, error := some e,
                       result := { user_id := ud.id, recommendations := [],
                                   reasoning := Except.error e,
                                   total_available := 0 } }, kb)) ∧
    (∀ (o : RecommendationOracle) (ud : RecUserData) (avail : List RecListing)
        (limit : Nat) (kb : FactBase) (e : String),
        o.run (kb ++ prepare_recommendation_facts ud avail) limit = Except.error e →
        get_property_recommendations o
          (PyDictOr.dict { user_data := PyDictOr.dict ud,
                           available_listings := PyListOr.list avail,
                           limit := limit }) kb =
          Except.ok ({ success := true, error := none,
                       result := { user_id := ud.id, recommendations := [],
                                   reasoning := Except.error e,
                                   total_available := avail.length } },
                     kb ++ prepare_recommendation_facts ud avail)) := by
  refine ⟨?_, ?_, ?_, ?_, ?_, ?_, ?_, ?_⟩
  · intro o req kb
    cases req with
    | malformed e => simp [validate_property]
    | ok ld ud => simp [validate_property]
  · intro o ld ud kb e h
    simp [validate_property, validate_listing_svc, h]
  · intro o req kb
    cases req with
    | nondict e => exact Or.inr rfl
    | dict listing_data =>
      cases listing_data with
      | nondict e =>
        exact Or.inr rfl
      | dict ld =>
        exact Or.inl rfl
  · intro o e kb
    exact ⟨rfl, rfl⟩
  · intro o ld kb facts e hf h
    simp [calculate_property_value, calculate_valuation_checked, calculate_valuation,
      hf, h]
  · intro o e avail limit kb
    exact ⟨rfl, rfl⟩
  · intro o ud e limit kb
    rfl
  · intro o ud avail limit kb e h
    simp [get_property_recommendations, get_recommendations_checked,
      get_recommendations_svc, h]

/-- An oracle standing for an engine whose queries return no atoms. -/
def idle_engine_oracle : EngineOracle :=
  { runValidate := fun _ => Except.ok [], runReasons := fun _ => Except.ok [] }

/-- Witness for the C1 leak theorem at a concrete oracle: the stale `verified` fact and
the fresh `pending` fact are both in the base when the second call's query runs. -/
theorem validation_fact_session_leaks_witness :
    "(kyc-status profile_7 verified)" ∈
      (validate_listing_svc idle_engine_oracle session_listing session_user_pending
        ((validate_listing_svc idle_engine_oracle session_listing
          session_user_verified []).2)).2 ∧
    "(kyc-status profile_7 pending)" ∈
      (validate_listing_svc idle_engine_oracle session_listing session_user_pending
        ((validate_listing_svc idle_engine_oracle session_listing
          session_user_verified []).2)).2 :=
  ⟨(validation_fact_session_leaks idle_engine_oracle).2.1,
   (validation_fact_session_leaks idle_engine_oracle).2.2⟩

/-- A validation oracle whose first query raises. -/
def raising_engine_oracle : EngineOracle :=
  { runValidate := fun _ => Except.error "engine down",
    runReasons := fun _ => Except.ok [] }

/-- A valuation oracle that raises. -/
def raising_valuation_oracle : ValuationOracle :=
  { run := fun _ => Except.error "engine down" }

/-- A recommendation oracle that raises. -/
def raising_recommendation_oracle : RecommendationOracle :=
  { run := fun _ _ => Except.error "engine down" }

/-- The `user_data` dictionary of a sample recommendation request. -/
def sample_rec_user : RecUserData :=
  { id := some 7, username := "asha", email := "asha@example.com",
    viewed_properties := [], purchased_properties := [], favorited_properties := [] }

/-- Witness for the amended C6 theorem: against raising oracles, the validation facade
answers `success = true` with an `ERROR` result, and the valuation and recommendation
facades return envelopes with `success = true` on well-formed requests; the
recommendation facade returns its `success = false` envelope for a dict `user_data`
with a non-list `available_listings`. -/
theorem facade_envelope_characterization_witness :
    (validate_property raising_engine_oracle
        (ValidationRequest.ok session_listing session_user_verified) []).1.success
      = true ∧
    (validate_property raising_engine_oracle
        (ValidationRequest.ok session_listing session_user_verified)
        []).1.result.status = "ERROR" ∧
    valuation_envelope_success
      (calculate_property_value raising_valuation_oracle
        (PyDictOr.dict (PyDictOr.dict session_listing)) []) = some true ∧
    rec_envelope_success
      (get_property_recommendations raising_recommendation_oracle
        (PyDictOr.dict { user_data := PyDictOr.dict sample_rec_user,
                         available_listings := PyListOr.list sample_avail,
                         limit := 5 }) []) = some true ∧
    rec_envelope_success
      (get_property_recommendations raising_recommendation_oracle
        (PyDictOr.dict { user_data := PyDictOr.dict sample_rec_user,
                         available_listings := PyListOr.nonlist "not a list",
                         limit := 5 }) []) = some false := by
  have h1 := facade_envelope_characterization.2.1 raising_engine_oracle session_listing
    session_user_verified [] "engine down" rfl
  have h2 := facade_envelope_characterization.2.2.2.2.1 raising_valuation_oracle
    session_listing [] _ "engine down" rfl rfl
  have h3 := facade_envelope_characterization.2.2.2.2.2.2.2 raising_recommendation_oracle
    sample_rec_user sample_avail 5 [] "engine down" rfl
  have h4 := facade_envelope_characterization.2.2.2.2.2.2.1 raising_recommendation_oracle
    sample_rec_user "not a list" 5 []
  refine ⟨h1.1, h1.2.1, ?_, ?_, ?_⟩
  · rw [h2]
    rfl
  · rw [h3]
    rfl
  · rw [h4]
    rfl

end HackIndia
